import Mathlib

/-
Verification of the League-OBS-Recorder event/recording pipeline.

This development embeds the state-bearing core of the repository:
  * src/logic.py   — the gameflow phase state machine (LCUGameLogic),
  * src/api.py     — the LCU websocket connection manager (LCUWebSocket),
  * src/obs_client.py — the OBS recording controller (OBSClient),
  * src/cache.py   — the LCUEventCache record.

Python JSON documents are modelled by the `Json` inductive below; Python
`None` is `Json.null`; Python dict lookup `d.get(k, default)` is `pyGet`,
which raises (returns an error) when the receiver is not a dict, exactly
as `.get` raises AttributeError on non-dict values.  Mutable attributes
of the Python objects become fields of explicit state structures, and
every method is a state-passing function translated line by line from
the source.  Interactions with the external OBS device inside one
handler call are captured by an `ObsOracle` record holding the values
the device reports at each query point of that call.
-/

/-- A JSON document as produced by Python's json.loads: None, bool, int,
str, list, dict (insertion-ordered association list with unique keys). -/
inductive Json where
  | null
  | bool (b : Bool)
  | num (n : Int)
  | str (s : String)
  | arr (elems : List Json)
  | obj (fields : List (String × Json))

mutual

/-- Structural equality of JSON documents, modelling Python `==` on the
values json.loads returns (numbers are compared as integers). -/
def Json.beq : Json → Json → Bool
  | .null, .null => true
  | .bool a, .bool b => a == b
  | .num a, .num b => a == b
  | .str a, .str b => a == b
  | .arr a, .arr b => Json.beqList a b
  | .obj a, .obj b => Json.beqObj a b
  | _, _ => false

def Json.beqList : List Json → List Json → Bool
  | [], [] => true
  | x :: xs, y :: ys => Json.beq x y && Json.beqList xs ys
  | _, _ => false

def Json.beqObj : List (String × Json) → List (String × Json) → Bool
  | [], [] => true
  | (k1, v1) :: xs, (k2, v2) :: ys => k1 == k2 && Json.beq v1 v2 && Json.beqObj xs ys
  | _, _ => false

end

mutual

def Json.beq_refl : ∀ j : Json, Json.beq j j = true
  | .null => rfl
  | .bool b => by simp [Json.beq]
  | .num n => by simp [Json.beq]
  | .str s => by simp [Json.beq]
  | .arr l => by simp [Json.beq, Json.beqList_refl l]
  | .obj l => by simp [Json.beq, Json.beqObj_refl l]

def Json.beqList_refl : ∀ l : List Json, Json.beqList l l = true
  | [] => rfl
  | x :: xs => by simp [Json.beqList, Json.beq_refl x, Json.beqList_refl xs]

def Json.beqObj_refl : ∀ l : List (String × Json), Json.beqObj l l = true
  | [] => rfl
  | (k, v) :: xs => by simp [Json.beqObj, Json.beq_refl v, Json.beqObj_refl xs]

end

mutual

def Json.eq_of_beq : ∀ a b : Json, Json.beq a b = true → a = b
  | .null, b, h => by cases b <;> simp_all [Json.beq]
  | .bool x, b, h => by cases b <;> simp_all [Json.beq]
  | .num x, b, h => by cases b <;> simp_all [Json.beq]
  | .str x, b, h => by cases b <;> simp_all [Json.beq]
  | .arr l, b, h => by
      cases b <;> simp_all [Json.beq]
      exact Json.eqList_of_beq l _ h
  | .obj l, b, h => by
      cases b <;> simp_all [Json.beq]
      exact Json.eqObj_of_beq l _ h

def Json.eqList_of_beq : ∀ a b : List Json, Json.beqList a b = true → a = b
  | [], [], _ => rfl
  | [], _ :: _, h => by simp [Json.beqList] at h
  | _ :: _, [], h => by simp [Json.beqList] at h
  | x :: xs, y :: ys, h => by
      rw [Json.beqList, Bool.and_eq_true] at h
      rw [Json.eq_of_beq x y h.1, Json.eqList_of_beq xs ys h.2]

def Json.eqObj_of_beq : ∀ a b : List (String × Json), Json.beqObj a b = true → a = b
  | [], [], _ => rfl
  | [], _ :: _, h => by simp [Json.beqObj] at h
  | _ :: _, [], h => by simp [Json.beqObj] at h
  | (k1, v1) :: xs, (k2, v2) :: ys, h => by
      rw [Json.beqObj, Bool.and_eq_true, Bool.and_eq_true] at h
      obtain ⟨⟨hk, hv⟩, ht⟩ := h
      have hks : k1 = k2 := by simpa using hk
      rw [Json.eq_of_beq v1 v2 hv, Json.eqObj_of_beq xs ys ht, hks]

end

instance : DecidableEq Json := fun a b =>
  if h : Json.beq a b = true then .isTrue (Json.eq_of_beq a b h)
  else .isFalse (fun he => h (he ▸ Json.beq_refl a))

instance {ε α : Type} [DecidableEq ε] [DecidableEq α] : DecidableEq (Except ε α) := fun a b =>
  match a, b with
  | .error e1, .error e2 =>
    if h : e1 = e2 then .isTrue (by rw [h]) else .isFalse (by simp [h])
  | .ok v1, .ok v2 =>
    if h : v1 = v2 then .isTrue (by rw [h]) else .isFalse (by simp [h])
  | .error _, .ok _ => .isFalse (by simp)
  | .ok _, .error _ => .isFalse (by simp)

/-- Python truthiness of a JSON value: None, False, 0, "", [] and the
empty dict are falsy, everything else truthy. -/
def pyTruthy : Json → Bool
  | .null => false
  | .bool b => b
  | .num n => n != 0
  | .str s => s != ""
  | .arr l => !l.isEmpty
  | .obj l => !l.isEmpty

/-- Python `receiver.get(key, default)`: returns the value bound to the
key (first binding, keys are unique) or the default when the receiver is
a dict, and raises AttributeError on any non-dict receiver. -/
def pyGet (j : Json) (key : String) (dflt : Json) : Except String Json :=
  match j with
  | .obj fields => .ok ((fields.lookup key).getD dflt)
  | _ => .error "AttributeError"

/-- Python membership `p in listOfStrings` for a JSON value p: true only
for a string value equal to one of the listed strings. -/
def phaseIn (p : Json) (l : List String) : Bool :=
  match p with
  | .str s => l.contains s
  | _ => false

/-- Equality of a JSON value with a string literal (Python `== "lit"`). -/
def jsonIsStr (p : Json) (s : String) : Bool :=
  Json.beq p (.str s)

def joinComma : List String → String
  | [] => ""
  | [x] => x
  | x :: y :: xs => x ++ ", " ++ joinComma (y :: xs)

mutual

/-- Python repr() of a JSON document, used by str() on lists and dicts. -/
def pyRepr : Json → String
  | .null => "None"
  | .bool true => "True"
  | .bool false => "False"
  | .num n => toString n
  | .str s => "'" ++ s ++ "'"
  | .arr l => "[" ++ joinComma (pyReprList l) ++ "]"
  | .obj l => "\x7b" ++ joinComma (pyReprObj l) ++ "\x7d"

def pyReprList : List Json → List String
  | [] => []
  | x :: xs => pyRepr x :: pyReprList xs

def pyReprObj : List (String × Json) → List String
  | [] => []
  | (k, v) :: xs => ("'" ++ k ++ "': " ++ pyRepr v) :: pyReprObj xs

end

/-- Python str() of a JSON value, as interpolated by an f-string. -/
def pyStr : Json → String
  | .str s => s
  | j => pyRepr j

/-- Lower-case an ASCII string character by character (str.lower). -/
def pyLower (s : String) : String :=
  ⟨s.data.map Char.toLower⟩

/-- The combination queue_type.lower().replace('_', '') from
src/logic.py line 168: lower-case, then delete every underscore. -/
def lowerStrip (s : String) : String :=
  ⟨(s.data.map Char.toLower).filter (fun c => c != '_')⟩

def hasSubAt : List Char → List Char → Bool
  | [], _ => true
  | _ :: _, [] => false
  | a :: as, b :: bs => a == b && hasSubAt as bs

def hasSub (sub : List Char) : List Char → Bool
  | [] => hasSubAt sub []
  | c :: rest => hasSubAt sub (c :: rest) || hasSub sub rest

/-- Python substring containment `sub in s` for strings. -/
def strContainsSub (s sub : String) : Bool :=
  hasSub sub.data s.data

def allSlash (l : List Char) : Bool := l.all (fun c => c == '/')

def rstripSlash (l : List Char) : List Char :=
  (l.reverse.dropWhile (fun c => c == '/')).reverse

/-- POSIX-style os.path.dirname: everything up to the last separator,
with trailing separators stripped unless the result is all separators. -/
def dirname (p : String) : String :=
  let head := (p.data.reverse.dropWhile (fun c => c != '/')).reverse
  if head.isEmpty then ""
  else if allSlash head then ⟨head⟩
  else ⟨rstripSlash head⟩

/-- POSIX-style os.path.join of a directory and a file name. -/
def joinPath (d name : String) : String :=
  if name.data.head? == some '/' then name
  else if d == "" || d.data.getLast? == some '/' then d ++ name
  else d ++ "/" ++ name

/-
Embedding of src/cache.py and src/logic.py (class LCUGameLogic).
-/

/-- The LCUEventCache dataclass of src/cache.py.  Python None is
modelled as Json.null in both fields (previous_phase is assigned the raw
extracted phase value, so it holds an arbitrary JSON value). -/
structure LCUEventCache where
  gameflow_session : Json
  previous_phase : Json
deriving DecidableEq

/-- The tri-state first component of _check_if_dodge's result:
False, True, or the string 'Unknown'. -/
inductive DodgeFlag where
  | noDodge
  | dodged
  | unknownDodge
deriving DecidableEq

/-- The tuple returned by _check_if_dodge (src/logic.py lines 81-92). -/
structure DodgeResult where
  flag : DodgeFlag
  phase : Json
  ids : Json
deriving DecidableEq

/-- The mutable attributes of LCUGameLogic that the gameflow handler
reads or writes.  obs_present models `self.obs is not None`; is_debug
models `self.is_debug` (log level DEBUG, the verbose override). -/
structure LogicState where
  cache : LCUEventCache
  in_game : Bool
  is_recording : Bool
  queue_status : Json
  game_dodge : DodgeResult
  obs_present : Bool
  is_debug : Bool
deriving DecidableEq

/-- The answers the external OBS device gives at each query point of a
single handler call: whether the obs_ready wait finished within its 5s
timeout, whether is_recording() reports active right after StartRecord,
whether is_recording() reports active when a stop begins, whether it
still reports active after StopRecord, the value of
get_last_recording_path(), and whether modify_last_recording succeeds. -/
structure ObsOracle where
  readyInTime : Bool
  startedOk : Bool
  recordingAtStop : Bool
  recordingAfterStop : Bool
  lastPath : Option String
  renameOk : Bool
deriving DecidableEq

/-- A recording-lifecycle command issued to the OBS controller. -/
inductive RecAction where
  | start
  | stop
  | rename (newPath : String)
deriving DecidableEq

/-- Which return statement of _handle_gameflow ended the call:
the change filter (line 183), the ignored-queue gate (line 198), or the
fall-through end of the method. -/
inductive GfExit where
  | filtered
  | gated
  | completed
deriving DecidableEq

/-- Result of a normally-returning _handle_gameflow call: the new
state, the recording commands issued during the call, in order, and the
return point taken. -/
structure GfOutcome where
  state : LogicState
  acts : List RecAction
  exitKind : GfExit
deriving DecidableEq

/-- Result of a _handle_gameflow call: a normal return, or a raised
exception together with the mutations that had already happened. -/
inductive GfResult where
  | ok (out : GfOutcome)
  | raised (err : String) (state : LogicState)
deriving DecidableEq

/-- The ignored queue set of src/logic.py lines 26-31, membership as
tested by `queue_type in self.ignored_queue_types`. -/
def ignoredQueue (q : Json) : Bool :=
  phaseIn q ["TUTORIAL_MODULE_1", "TUTORIAL_MODULE_2", "TUTORIAL_MODULE_3", "PRACTICE_TOOL"]

/-- _is_data_different (src/logic.py lines 98-102): True when nothing is
cached yet (None), else Python inequality of the documents. -/
def is_data_different (newData cached : Json) : Bool :=
  match cached with
  | .null => true
  | c => !(Json.beq newData c)

/-- _get_queue_type (src/logic.py lines 94-96):
data.get('gameData', dict()).get('queue', dict()).get('type', ''). -/
def get_queue_type (data : Json) : Except String Json := do
  let gd ← pyGet data "gameData" (.obj [])
  let q ← pyGet gd "queue" (.obj [])
  pyGet q "type" (.str "")

/-- _check_if_dodge (src/logic.py lines 81-92).  A falsy gameDodge
sub-document yields (False, '', []); a dodge whose phase is ReadyCheck
or ChampSelect with state PartyDodged yields True; any other truthy
dodge document yields 'Unknown'; phase and dodgeIds are carried along
in the latter two cases. -/
def check_if_dodge (data : Json) : Except String DodgeResult := do
  let dodge ← pyGet data "gameDodge" (.obj [])
  if !(pyTruthy dodge) then
    return ⟨.noDodge, .str "", .arr []⟩
  let ph ← pyGet dodge "phase" (.str "")
  let st ← pyGet dodge "state" (.str "Invalid")
  let ids ← pyGet dodge "dodgeIds" (.arr [])
  if phaseIn ph ["ReadyCheck", "ChampSelect"] && jsonIsStr st "PartyDodged" then
    return ⟨.dodged, ph, ids⟩
  return ⟨.unknownDodge, ph, ids⟩

/-- _handle_recording_start (src/logic.py lines 111-136).  Returns the
new state, the commands issued, and the boolean result of the method.
A timeout of the obs_ready wait raises before StartRecord is sent and
is caught by the method's except, which returns False; after a
StartRecord the device is re-queried and only a confirmed active
recording sets is_recording. -/
def handle_recording_start (o : ObsOracle) (s : LogicState) :
    LogicState × List RecAction × Bool :=
  if !s.obs_present then (s, [], false)
  else if !o.readyInTime then (s, [], false)
  else if o.startedOk then ({s with is_recording := true}, [.start], true)
  else (s, [.start], false)

/-- _handle_recording_stop (src/logic.py lines 138-178).  If the device
already reports not-recording the tracked flag is synced and the method
succeeds without issuing StopRecord.  Otherwise StopRecord is issued;
if the device still reports active the method fails with is_recording
left true.  On a confirmed stop is_recording is cleared, the game id is
read from the session document ('unknown' if absent), and if the device
reports a truthy last recording path a rename to
league_<queue'>_game_<id> in the same directory is requested, where
queue' is the lower-cased underscore-stripped queue type; a rename
failure (or an AttributeError from .lower() on a non-string queue type,
caught by the method's except) returns False without reverting
is_recording. -/
def handle_recording_stop (o : ObsOracle) (queue_type json_data : Json)
    (s : LogicState) : LogicState × List RecAction × Bool :=
  if !s.obs_present then (s, [], false)
  else if !o.recordingAtStop then ({s with is_recording := false}, [], true)
  else if o.recordingAfterStop then (s, [.stop], false)
  else
    let s' := {s with is_recording := false}
    match (do
        let gd ← pyGet json_data "gameData" (.obj [])
        pyGet gd "gameId" (.str "unknown") : Except String Json) with
    | .error _ => (s', [.stop], false)
    | .ok gid =>
      match o.lastPath with
      | none => (s', [.stop], true)
      | some p =>
        if p == "" then (s', [.stop], true)
        else
          match queue_type with
          | .str qs =>
            let newName := "league_" ++ lowerStrip qs ++ "_game_" ++ pyStr gid
            let newPath := joinPath (dirname p) newName
            if o.renameOk then (s', [.stop, .rename newPath], true)
            else (s', [.stop, .rename newPath], false)
          | _ => (s', [.stop], false)

/-- The in_game update of the strict-phase-change block (src/logic.py
lines 210-218): entering ReadyCheck or ChampSelect sets in_game; the
end-of-game phases clear it; TerminatedInError clears it only for the
PRACTICE_TOOL queue and otherwise leaves it unchanged. -/
def update_in_game (s : LogicState) (current_phase queue_type : Json) : LogicState :=
  if phaseIn current_phase ["ReadyCheck", "ChampSelect"] then
    {s with in_game := true}
  else if phaseIn current_phase ["EndOfGame", "GameComplete", "None", "Lobby"] then
    {s with in_game := false}
  else if jsonIsStr current_phase "TerminatedInError" && jsonIsStr queue_type "PRACTICE_TOOL" then
    {s with in_game := false}
  else s

/-- The result pair of a dispatched start: the state after
_handle_recording_start and the commands it issued. -/
def startPair (o : ObsOracle) (s : LogicState) : LogicState × List RecAction :=
  ((handle_recording_start o s).1, (handle_recording_start o s).2.1)

/-- The result pair of a dispatched stop: the state after
_handle_recording_stop and the commands it issued. -/
def stopPair (o : ObsOracle) (queue_type json_data : Json) (s : LogicState) :
    LogicState × List RecAction :=
  ((handle_recording_stop o queue_type json_data s).1,
   (handle_recording_stop o queue_type json_data s).2.1)

/-- The recording elif chain of the strict-phase-change block
(src/logic.py lines 220-247), guarded by `if self.obs:`, the first
matching case firing.  The value `self.cache.previous_phase or 'None'`
of line 204 appears inline in the cancelled-game case, its only use
(the in_game update does not touch the cache, so reading the cache here
is equivalent to reading it at line 204). -/
def recording_dispatch (o : ObsOracle) (s : LogicState)
    (current_phase queue_type json_data : Json) : LogicState × List RecAction :=
  if !s.obs_present then (s, [])
  else if phaseIn current_phase ["ReadyCheck", "ChampSelect"] && !s.is_recording then
    startPair o s
  else if jsonIsStr current_phase "None"
      && phaseIn (if pyTruthy s.cache.previous_phase then s.cache.previous_phase else .str "None")
           ["ReadyCheck", "ChampSelect"]
      && s.is_recording then
    stopPair o queue_type json_data s
  else if phaseIn current_phase ["EndOfGame", "GameComplete"] && s.is_recording then
    stopPair o queue_type json_data s
  else if jsonIsStr current_phase "TerminatedInError" && s.is_recording then
    if jsonIsStr queue_type "PRACTICE_TOOL" then (s, [])
    else stopPair o queue_type json_data s
  else if phaseIn current_phase ["Lobby", "Matchmaking"] && s.game_dodge.flag == DodgeFlag.dodged
      && s.is_recording then
    stopPair o queue_type json_data s
  else (s, [])

/-- The whole strict-phase-change block of _handle_gameflow
(src/logic.py lines 203-247), entered only when current_phase differs
from the cached previous_phase. -/
def transition_step (o : ObsOracle) (s : LogicState)
    (current_phase queue_type json_data : Json) : LogicState × List RecAction :=
  recording_dispatch o (update_in_game s current_phase queue_type) current_phase queue_type json_data

/-- _handle_gameflow (src/logic.py lines 180-262), translated statement
by statement: the change filter, the cache update, the extraction of
current_phase and queue_type, the queue_status and game_dodge updates,
the ignored-queue gate (which returns before the transition block and
before the final previous_phase update), the strict-phase-change block,
and the final previous_phase assignment. -/
def handle_gameflow (o : ObsOracle) (s : LogicState) (data : Json) : GfResult :=
  if !(is_data_different data s.cache.gameflow_session) then
    .ok ⟨s, [], .filtered⟩
  else
    let s := {s with cache.gameflow_session := data}
    match pyGet data "data" (.obj []) with
    | .error e => .raised e s
    | .ok json_data =>
      match pyGet json_data "phase" (.str "") with
      | .error e => .raised e s
      | .ok current_phase =>
        match get_queue_type json_data with
        | .error e => .raised e s
        | .ok queue_type =>
          let s := {s with queue_status := current_phase}
          match check_if_dodge json_data with
          | .error e => .raised e s
          | .ok gd =>
            let s := {s with game_dodge := gd}
            if ignoredQueue queue_type && !s.is_debug then
              .ok ⟨s, [], .gated⟩
            else
              let r :=
                if !(Json.beq current_phase s.cache.previous_phase) then
                  transition_step o s current_phase queue_type json_data
                else (s, [])
              .ok ⟨{r.1 with cache.previous_phase := current_phase}, r.2, .completed⟩

/-- The phase a given payload makes _handle_gameflow extract:
payload.get('data', dict()).get('phase', ''). -/
def extractPhase (data : Json) : Except String Json := do
  let jd ← pyGet data "data" (.obj [])
  pyGet jd "phase" (.str "")

/-- Recording commands that start or stop a capture (a rename is the
post-processing tail of a stop, not a lifecycle command of its own). -/
def isRecCommand : RecAction → Bool
  | .start => true
  | .stop => true
  | .rename _ => false

/-- Convenience projection used to name the outcome of a call in closed
statements: the outcome of a normal return, or a fallback. -/
def outcomeOf (r : GfResult) (dflt : GfOutcome) : GfOutcome :=
  match r with
  | .ok out => out
  | .raised _ st => {dflt with state := st}

/-
Embedding of src/api.py (class LCUWebSocket).
-/

/-- The class constants of LCUWebSocket (src/api.py lines 13-14). -/
def RETRY_INTERVAL : Nat := 5

def MAX_RETRIES : Nat := 3

/-- What the environment supplies to one iteration of the connect retry
loop: the pair returned by auth.get_auth() (None models an absent
value) and whether the websockets.connect call then succeeds. -/
structure ConnAttempt where
  port : Option String
  token : Option String
  sockOk : Bool

/-- The cause of a failed connection attempt: the ConnectionError raised
when the auth details are falsy (src/api.py lines 39-40), or a failure
of the websocket handshake itself. -/
inductive AttemptFailure where
  | authMissing
  | connFailed
deriving DecidableEq

/-- Python falsiness of an optional string (absent or empty). -/
def pyFalsyOptStr : Option String → Bool
  | none => true
  | some s => s == ""

/-- Outcome of the body of one loop iteration of connect(): none on
success, otherwise the exception the iteration raised internally. -/
def attemptResult (a : ConnAttempt) : Option AttemptFailure :=
  if pyFalsyOptStr a.port || pyFalsyOptStr a.token then some .authMissing
  else if a.sockOk then none else some .connFailed

/-- Observable outcome of connect(): whether it returned connected, the
cause wrapped by the final ConnectionError when it raised, how many
attempts ran, and how many RETRY_INTERVAL backoff sleeps happened. -/
structure ConnectOutcome where
  connected : Bool
  raisedWrapping : Option AttemptFailure
  attemptsMade : Nat
  backoffSleeps : Nat
deriving DecidableEq

/-- The retry loop of connect() (src/api.py lines 34-67): every
exception of an iteration — the auth-details ConnectionError included —
is caught by the iteration's own `except Exception`; if the iteration
was the last (fuel exhausted) a ConnectionError wrapping the cause is
raised, otherwise the loop sleeps RETRY_INTERVAL seconds and retries. -/
def connectAux (att : Nat → ConnAttempt) : Nat → Nat → Nat → ConnectOutcome
  | 0, i, sleeps => ⟨false, none, i, sleeps⟩
  | fuel + 1, i, sleeps =>
    match attemptResult (att i) with
    | none => ⟨true, none, i + 1, sleeps⟩
    | some f =>
      if fuel == 0 then ⟨false, some f, i + 1, sleeps⟩
      else connectAux att fuel (i + 1) (sleeps + 1)

/-- connect() of src/api.py: run the retry loop with MAX_RETRIES fuel,
with `att i` describing what the environment does on attempt i. -/
def lcuConnect (att : Nat → ConnAttempt) : ConnectOutcome :=
  connectAux att MAX_RETRIES 0 0

/-- What the receive loop of listen() observes next: an inbound message
iterated from the websocket, a websockets.ConnectionClosed, some other
exception from the loop body, or the first effect of a concurrent
close() call, which is the `self._running = False` assignment. -/
inductive WsEvent where
  | msgArrived
  | connClosed
  | otherErr
  | closeBegun
deriving DecidableEq

/-- The receive loop's view of the connection: the _running flag, whether
the while loop has exited, and how many reconnecting connect() calls the
loop has made so far. -/
structure ListenState where
  running : Bool
  exited : Bool
  connects : Nat
deriving DecidableEq

/-- One observable step of listen() (src/api.py lines 81-104): a message
is processed while running and breaks the loop otherwise (the inner
check at line 89 followed by the while condition); a ConnectionClosed
while running triggers exactly one connect() call and the loop
continues, while a ConnectionClosed during shutdown breaks out; any
other error pauses and continues while running and breaks otherwise;
closeBegun is close() clearing the running flag (line 141). -/
def listenStep (st : ListenState) (e : WsEvent) : ListenState :=
  match e with
  | .closeBegun => {st with running := false}
  | .msgArrived =>
    if st.exited then st
    else if st.running then st else {st with exited := true}
  | .connClosed =>
    if st.exited then st
    else if st.running then {st with connects := st.connects + 1}
    else {st with exited := true}
  | .otherErr =>
    if st.exited then st
    else if st.running then st else {st with exited := true}

/-- Run the receive loop over a sequence of observed events. -/
def listenRun (st : ListenState) : List WsEvent → ListenState :=
  List.foldl listenStep st

/-- The state listen() starts from: the entry of listen() sets
_running = True (src/api.py line 83). -/
def listenInit : ListenState := ⟨true, false, 0⟩

/-- An LCU event handler registered in event_handlers, named by an
opaque identifier (the registry maps topic keys to callables). -/
abbrev HandlerId := Nat

/-- Python membership `path in event_type` where event_type is the JSON
value at index 1 of the frame: substring test on a string, element
equality on a list, key membership on a dict, TypeError otherwise. -/
def pyInTopic (path : String) (topic : Json) : Except String Bool :=
  match topic with
  | .str s => .ok (strContainsSub s path)
  | .arr l => .ok (l.any (fun e => Json.beq e (.str path)))
  | .obj fs => .ok (fs.any (fun kv => kv.1 == path))
  | _ => .error "TypeError"

/-- The dispatch loop of _handle_message (src/api.py lines 125-127): in
registration order, every handler whose key passes the membership test
is invoked with the payload; a TypeError from the membership test is
caught by the outer except and ends the dispatch. -/
def dispatchHandlers (handlers : List (String × HandlerId)) (topic payload : Json) :
    List (HandlerId × Json) :=
  match handlers with
  | [] => []
  | (path, h) :: rest =>
    match pyInTopic path topic with
    | .error _ => []
    | .ok true => (h, payload) :: dispatchHandlers rest topic payload
    | .ok false => dispatchHandlers rest topic payload

/-- _handle_message (src/api.py lines 106-134).  The argument is the
result of json.loads on the frame: none models a JSONDecodeError, which
is caught and logged.  A decoded value that is not a list, or is a list
of length at most 2, is discarded (line 110).  Otherwise index 1 is the
topic and index 2 the payload, and the registry is dispatched.  Every
exception is caught inside the method, so it always returns a (possibly
empty) list of performed handler invocations and never raises. -/
def handleMessage (handlers : List (String × HandlerId)) (decoded : Option Json) :
    List (HandlerId × Json) :=
  match decoded with
  | none => []
  | some d =>
    match d with
    | .arr l =>
      if l.length ≤ 2 then []
      else dispatchHandlers handlers (l.getD 1 .null) (l.getD 2 .null)
    | _ => []

/-- The attributes of LCUWebSocket that close() and connect() touch:
the _running flag and whether self.websocket holds a transport. -/
structure ApiConnState where
  running : Bool
  ws_ref : Bool
deriving DecidableEq

/-- Externally visible effect of close() on the transport. -/
inductive CloseEffect where
  | transportClosed
deriving DecidableEq

/-- close() (src/api.py lines 136-151): a call with the running flag
unset returns at once; otherwise it clears the flag first, then closes
the transport if the websocket reference is set, and finally clears the
reference. -/
def apiClose (s : ApiConnState) : ApiConnState × List CloseEffect :=
  if !s.running then (s, [])
  else
    let effects := if s.ws_ref then [CloseEffect.transportClosed] else []
    (⟨false, false⟩, effects)

/-- The effect of a successful connect() on these attributes
(src/api.py line 51): the websocket reference is set; the _running flag
is only ever set by listen(), not by connect(). -/
def apiConnectEffect (s : ApiConnState) : ApiConnState :=
  {s with ws_ref := true}

/-
Embedding of src/obs_client.py (class OBSClient), restricted to the
attributes the recording-path claims read or write.
-/

/-- The OBSClient attributes involved in recording-path tracking:
last_recording_path (written only by modify_last_recording, line 663),
_recording_state and _recording_path (written by the event handler),
the _recording_event flag, the connected flag and the ws reference. -/
structure ObsClientState where
  last_recording_path : Option String
  recording_state : Option String
  recording_path : Option String
  recording_event : Bool
  connected : Bool
  ws_ref : Bool
deriving DecidableEq

/-- The state right after OBSClient.__init__ (src/obs_client.py lines
15-52): last_recording_path is None, the event bookkeeping is empty,
not yet connected, and self.ws holds the obsws object. -/
def obsClientInit : ObsClientState :=
  ⟨none, none, none, false, false, true⟩

/-- os.path.splitext-style extension of a path: the suffix of the last
component from its last dot, empty when the component has no dot or
only a leading dot. -/
def extOf (p : String) : String :=
  let base := (p.data.reverse.takeWhile (fun c => c != '/')).reverse
  let revTail := base.reverse.takeWhile (fun c => c != '.')
  if revTail.length + 1 < base.length then ⟨'.' :: revTail.reverse⟩
  else if revTail.length + 1 == base.length && base.length > 1 then ⟨'.' :: revTail.reverse⟩
  else ""

/-- The path without its extOf suffix. -/
def stripExt (p : String) : String :=
  ⟨p.data.take (p.data.length - (extOf p).data.length)⟩

/-- The state-changing operations of OBSClient, with the environment's
contribution as fields: an obs-websocket event delivered to _on_event
(src/obs_client.py lines 70-92), a successful or failed _connect
(lines 224-265), the cleanup tail of _disconnect (lines 330-335), the
cleanup tail of _force_cleanup (lines 724-729), and a
modify_last_recording call (lines 615-678) whose file-system steps
succeed or fail as one flag. -/
inductive ObsOp where
  | onEvent (isRecordStateChanged : Bool) (outputState : Option String)
      (outputPath : Option String) (outputActive : Bool)
  | connectOk
  | connectFail
  | disconnectTail
  | forceCleanupTail
  | modifyLast (newPath : String) (fsOk : Bool)

/-- modify_last_recording (src/obs_client.py lines 615-678, the later
definition of the two in the class, which is the one Python keeps):
with a falsy last_recording_path it logs and returns False; otherwise
the target name inherits the source extension when it has none or a
different one, and on a successful move last_recording_path becomes the
adjusted target; every failure returns False leaving the state as-is. -/
def modify_last_recording (s : ObsClientState) (newPath : String) (fsOk : Bool) :
    ObsClientState × Bool :=
  match s.last_recording_path with
  | none => (s, false)
  | some lastP =>
    if lastP == "" then (s, false)
    else
      let origExt := extOf lastP
      let newExt := extOf newPath
      let finalPath :=
        if newExt == "" then newPath ++ origExt
        else if pyLower newExt != pyLower origExt then stripExt newPath ++ origExt
        else newPath
      if fsOk then ({s with last_recording_path := some finalPath}, true)
      else (s, false)

/-- get_last_recording_path (src/obs_client.py lines 611-613, the later
definition of the two in the class, which is the one Python keeps):
returns the last_recording_path attribute. -/
def get_last_recording_path (s : ObsClientState) : Option String :=
  s.last_recording_path

/-- One state transition of OBSClient.  The event handler stores the
output state, stores a truthy outputPath into _recording_path (never
into last_recording_path), and sets the recording event on a confirmed
start; _connect on success marks connected and resets the recording
bookkeeping; the _disconnect and _force_cleanup tails clear the ws
reference, the connected flag and (for _disconnect) the bookkeeping. -/
def obsStep (s : ObsClientState) (op : ObsOp) : ObsClientState :=
  match op with
  | .onEvent isRSC outputState outputPath outputActive =>
    if !isRSC then s
    else
      let s := {s with recording_state := outputState}
      let s :=
        match outputPath with
        | some p => if p == "" then s else {s with recording_path := some p}
        | none => s
      if outputState == some "OBS_WEBSOCKET_OUTPUT_STARTED" && outputActive then
        {s with recording_event := true}
      else s
  | .connectOk =>
    {s with connected := true, recording_event := false,
            recording_state := none, recording_path := none}
  | .connectFail => s
  | .disconnectTail =>
    {s with ws_ref := false, connected := false,
            recording_state := none, recording_path := none}
  | .forceCleanupTail =>
    {s with ws_ref := false, connected := false}
  | .modifyLast newPath fsOk => (modify_last_recording s newPath fsOk).1

/-- Run a sequence of OBSClient operations from a starting state. -/
def obsRun (s : ObsClientState) : List ObsOp → ObsClientState :=
  List.foldl obsStep s

/-
Concrete documents, states and oracles used by the closed statements.
-/

/-- The DodgeResult value (False, '', []) before any dodge was seen. -/
def dfltDodge : DodgeResult := ⟨.noDodge, .str "", .arr []⟩

/-- A device that behaves: ready in time, start confirms, stop begins
with an active recording and confirms, no last path, rename would work. -/
def oracleSmooth : ObsOracle := ⟨true, true, true, false, none, true⟩

/-- A session payload entering ChampSelect in the PRACTICE_TOOL queue. -/
def practicePayload : Json :=
  .obj [("data", .obj [("phase", .str "ChampSelect"),
                       ("gameData", .obj [("queue", .obj [("type", .str "PRACTICE_TOOL")])])])]

/-- A state whose cached previous phase is Lobby, nothing recorded yet,
OBS attached, non-verbose mode. -/
def stateLobbyPrev : LogicState :=
  ⟨⟨.null, .str "Lobby"⟩, false, false, .str "HomeScreen", dfltDodge, true, false⟩

/-- The payload of spec scenario §8: EndOfGame, RANKED_SOLO_5x5, id 123. -/
def rankedPayload : Json :=
  .obj [("data", .obj [("phase", .str "EndOfGame"),
                       ("gameData", .obj [("queue", .obj [("type", .str "RANKED_SOLO_5x5")]),
                                          ("gameId", .num 123)])])]

/-- The same payload with the gameId key absent. -/
def rankedPayloadNoId : Json :=
  .obj [("data", .obj [("phase", .str "EndOfGame"),
                       ("gameData", .obj [("queue", .obj [("type", .str "RANKED_SOLO_5x5")])])])]

/-- A state in ChampSelect with an active, tracked recording. -/
def stateAfterChampSelect : LogicState :=
  ⟨⟨.null, .str "ChampSelect"⟩, true, true, .str "ChampSelect", dfltDodge, true, false⟩

/-- A device mid-recording whose stop confirms, reporting a last path,
but whose rename request fails. -/
def oracleStopRenameFails : ObsOracle :=
  ⟨true, true, true, false, some "/recordings/raw.mkv", false⟩

/-- A minimal session payload carrying only a phase. -/
def payloadOfPhase (ph : String) : Json :=
  .obj [("data", .obj [("phase", .str ph)])]

/-- The state at process start: empty cache, not in game, not recording,
OBS attached, non-verbose mode. -/
def stateStart : LogicState :=
  ⟨⟨.null, .null⟩, false, false, .str "HomeScreen", dfltDodge, true, false⟩

/-- An environment whose Auth Provider never returns details. -/
def authAbsentAttempt : ConnAttempt := ⟨none, none, true⟩

/-- The registry of the deployed process: the gameflow topic. -/
def gameflowHandlers : List (String × HandlerId) := [("lol-gameflow_v1_session", 0)]

/-- A well-formed gameflow frame as decoded from the wire. -/
def gameflowFrame : Json :=
  .arr [.num 8, .str "OnJsonApiEvent_lol-gameflow_v1_session", .obj [("data", .obj [])]]

/-- Fallback outcome for naming a call's outcome in closed statements. -/
def dfltOutcome : GfOutcome := ⟨stateStart, [], .filtered⟩

/-- The state after the Lobby payload in the start-stop sequencing run. -/
def stateSeq1 : LogicState :=
  ⟨⟨payloadOfPhase "Lobby", .str "Lobby"⟩, false, false, .str "Lobby", dfltDodge, true, false⟩

/-- The state after the ReadyCheck payload: recording started. -/
def stateSeq2 : LogicState :=
  ⟨⟨payloadOfPhase "ReadyCheck", .str "ReadyCheck"⟩, true, true, .str "ReadyCheck", dfltDodge, true, false⟩

/-- The state after the ChampSelect payload: recording continues. -/
def stateSeq3 : LogicState :=
  ⟨⟨payloadOfPhase "ChampSelect", .str "ChampSelect"⟩, true, true, .str "ChampSelect", dfltDodge, true, false⟩

/-- The state after the None payload: the cancellation stop fired. -/
def stateSeq4 : LogicState :=
  ⟨⟨payloadOfPhase "None", .str "None"⟩, false, false, .str "None", dfltDodge, true, false⟩

/-- Recognize a rename request among the issued commands. -/
def isRename : RecAction → Bool
  | .rename _ => true
  | _ => false

/-- The environment in which every attempt sees absent auth details. -/
def authAbsentEnv : Nat → ConnAttempt := fun _ => authAbsentAttempt

/-
Helper lemmas about the gameflow handler.
-/

theorem pyGet_ok_obj {j : Json} {k : String} {dflt v : Json}
    (h : pyGet j k dflt = .ok v) : ∃ fs, j = Json.obj fs := by
  cases j <;> simp [pyGet] at h
  exact ⟨_, rfl⟩

theorem handle_recording_start_cache (o : ObsOracle) (s : LogicState) :
    (handle_recording_start o s).1.cache = s.cache := by
  unfold handle_recording_start
  repeat' split
  all_goals rfl

theorem handle_recording_stop_cache (o : ObsOracle) (qt jd : Json) (s : LogicState) :
    (handle_recording_stop o qt jd s).1.cache = s.cache := by
  unfold handle_recording_stop
  repeat' split
  all_goals rfl

theorem update_in_game_cache (s : LogicState) (cp qt : Json) :
    (update_in_game s cp qt).cache = s.cache := by
  unfold update_in_game
  repeat' split
  all_goals rfl

theorem recording_dispatch_cache (o : ObsOracle) (s : LogicState) (cp qt jd : Json) :
    (recording_dispatch o s cp qt jd).1.cache = s.cache := by
  unfold recording_dispatch
  repeat' split
  all_goals first
    | rfl
    | exact handle_recording_start_cache o s
    | exact handle_recording_stop_cache o qt jd s

theorem transition_step_cache (o : ObsOracle) (s : LogicState) (cp qt jd : Json) :
    (transition_step o s cp qt jd).1.cache = s.cache := by
  unfold transition_step
  rw [recording_dispatch_cache, update_in_game_cache]

theorem handle_recording_start_acts (o : ObsOracle) (s : LogicState) :
    ((handle_recording_start o s).2.1.countP isRecCommand) ≤ 1 := by
  unfold handle_recording_start
  repeat' split
  all_goals simp [List.countP_cons, List.countP_nil, isRecCommand]

theorem handle_recording_stop_acts (o : ObsOracle) (qt jd : Json) (s : LogicState) :
    ((handle_recording_stop o qt jd s).2.1.countP isRecCommand) ≤ 1 := by
  unfold handle_recording_stop
  repeat' split
  all_goals simp [List.countP_cons, List.countP_nil, isRecCommand]

theorem recording_dispatch_acts (o : ObsOracle) (s : LogicState) (cp qt jd : Json) :
    ((recording_dispatch o s cp qt jd).2.countP isRecCommand) ≤ 1 := by
  unfold recording_dispatch
  repeat' split
  all_goals first
    | exact handle_recording_start_acts o s
    | exact handle_recording_stop_acts o qt jd s
    | simp [List.countP_nil]

theorem transition_step_acts (o : ObsOracle) (s : LogicState) (cp qt jd : Json) :
    ((transition_step o s cp qt jd).2.countP isRecCommand) ≤ 1 := by
  unfold transition_step
  exact recording_dispatch_acts o (update_in_game s cp qt) cp qt jd

theorem is_data_different_self_obj (fs : List (String × Json)) :
    is_data_different (Json.obj fs) (Json.obj fs) = false := by
  simp [is_data_different, Json.beq_refl]

/-- A call on a state whose cached session is already the incoming dict
payload returns through the change filter: no mutation, no actions. -/
theorem gf_filter_hit (o : ObsOracle) (st : LogicState) (fs : List (String × Json))
    (hst : st.cache.gameflow_session = Json.obj fs) :
    handle_gameflow o st (Json.obj fs) = .ok ⟨st, [], .filtered⟩ := by
  have hc : (!(is_data_different (Json.obj fs) st.cache.gameflow_session)) = true := by
    rw [hst]; simp [is_data_different, Json.beq_refl]
  unfold handle_gameflow
  rw [if_pos hc]

/-- After any normally-returning call, feeding the same payload again is
dropped by the change filter with no state change and no actions. -/
theorem gf_refilter (o o' : ObsOracle) (s : LogicState) (d : Json) (out : GfOutcome)
    (h : handle_gameflow o s d = .ok out) :
    handle_gameflow o' out.state d = .ok ⟨out.state, [], .filtered⟩ := by
  unfold handle_gameflow at h
  split at h
  · rename_i hcond
    injection h with h1
    subst h1
    unfold handle_gameflow
    rw [if_pos hcond]
  · rename_i hcond
    split at h
    · exact absurd h (by simp)
    · rename_i json_data heq1
      split at h
      · exact absurd h (by simp)
      · rename_i current_phase heq2
        split at h
        · exact absurd h (by simp)
        · rename_i queue_type heq3
          split at h
          · exact absurd h (by simp)
          · rename_i gd heq4
            obtain ⟨fs, rfl⟩ := pyGet_ok_obj heq1
            dsimp only at h
            split at h
            · injection h with h1
              subst h1
              exact gf_filter_hit o' _ fs rfl
            · injection h with h1
              subst h1
              refine gf_filter_hit o' _ fs ?_
              show (if _ then transition_step o _ current_phase queue_type json_data
                    else (_, [])).1.cache.gameflow_session = Json.obj fs
              split
              · rw [transition_step_cache]
              · rfl

/-
Claim theorems.
-/

/-- C2: for the session payload with phase EndOfGame, queue type
RANKED_SOLO_5x5 and gameId 123 arriving after a prior ChampSelect phase
while is_recording is true (and the device confirming the stop and
reporting a last path), the stop command is issued and a rename is
requested whose new name contains the lower-cased underscore-stripped
queue type and the game id (with unknown substituted when gameId is
absent); the rename failure (renameOk = false in the oracle) leaves
is_recording false in the returned state. -/
theorem c2_stop_and_rename_scenario :
    handle_gameflow oracleStopRenameFails stateAfterChampSelect rankedPayload =
      .ok ⟨⟨⟨rankedPayload, .str "EndOfGame"⟩, false, false, .str "EndOfGame", dfltDodge, true, false⟩,
           [.stop, .rename "/recordings/league_rankedsolo5x5_game_123"], .completed⟩ ∧
    strContainsSub "/recordings/league_rankedsolo5x5_game_123" "rankedsolo5x5" = true ∧
    strContainsSub "/recordings/league_rankedsolo5x5_game_123" "123" = true ∧
    handle_gameflow oracleStopRenameFails stateAfterChampSelect rankedPayloadNoId =
      .ok ⟨⟨⟨rankedPayloadNoId, .str "EndOfGame"⟩, false, false, .str "EndOfGame", dfltDodge, true, false⟩,
           [.stop, .rename "/recordings/league_rankedsolo5x5_game_unknown"], .completed⟩ := by
  decide

/-- C1 counterexample: a ChampSelect payload in the PRACTICE_TOOL queue
passes the change filter and returns normally through the ignored-queue
gate, yet the cached previous_phase is still Lobby, not the extracted
current phase ChampSelect — the gate suppresses the phase tracking of
line 250 along with the actions. -/
theorem c1_counterexample_gate_skips_tracking :
    is_data_different practicePayload stateLobbyPrev.cache.gameflow_session = true ∧
    handle_gameflow oracleSmooth stateLobbyPrev practicePayload =
      .ok ⟨⟨⟨practicePayload, .str "Lobby"⟩, false, false, .str "ChampSelect", dfltDodge, true, false⟩,
           [], .gated⟩ ∧
    extractPhase practicePayload = .ok (.str "ChampSelect") ∧
    Json.str "Lobby" ≠ Json.str "ChampSelect" := by
  decide

/-- C7 counterexample: with the Auth Provider returning absent details
on every attempt, connect() does not fail fast: it spends the whole
retry budget (3 attempts, 2 backoff sleeps) before raising the final
ConnectionError, which wraps the auth-missing cause. -/
theorem c7_counterexample_auth_retries :
    lcuConnect authAbsentEnv = ⟨false, some AttemptFailure.authMissing, 3, 2⟩ ∧
    (lcuConnect authAbsentEnv).attemptsMade ≠ 1 ∧
    (lcuConnect authAbsentEnv).backoffSleeps ≠ 0 := by
  decide

/-- C1 amended: when a handler call that passed the change filter
returns normally, the cached previous_phase equals the extracted
current phase only when execution reached the end of the method; when
the ignored-queue gate fired (ignored queue type in non-verbose mode),
the call returns early and previous_phase is left unchanged — the gate
suppresses phase tracking along with recording actions.  (A call
dropped by the change filter leaves the whole state unchanged.) -/
theorem c1_amended_phase_tracking :
    ∀ (o : ObsOracle) (s : LogicState) (d : Json) (out : GfOutcome),
      handle_gameflow o s d = .ok out →
      (out.exitKind = GfExit.filtered → out.state = s) ∧
      (out.exitKind = GfExit.gated → out.state.cache.previous_phase = s.cache.previous_phase) ∧
      (out.exitKind = GfExit.completed → extractPhase d = .ok out.state.cache.previous_phase) := by
  intro o s d out h
  unfold handle_gameflow at h
  split at h
  · injection h with h1
    subst h1
    refine ⟨fun _ => rfl, fun hx => ?_, fun hx => ?_⟩
    · exact nomatch hx
    · exact nomatch hx
  · split at h
    · exact absurd h (by simp)
    · rename_i json_data heq1
      split at h
      · exact absurd h (by simp)
      · rename_i current_phase heq2
        split at h
        · exact absurd h (by simp)
        · rename_i queue_type heq3
          split at h
          · exact absurd h (by simp)
          · rename_i gd heq4
            dsimp only at h
            split at h
            · injection h with h1
              subst h1
              refine ⟨fun hx => ?_, fun _ => rfl, fun hx => ?_⟩
              · exact nomatch hx
              · exact nomatch hx
            · injection h with h1
              subst h1
              refine ⟨fun hx => ?_, fun hx => ?_, fun _ => ?_⟩
              · exact nomatch hx
              · exact nomatch hx
              · simp only [extractPhase, Bind.bind, Except.bind, heq1, heq2]

/-- C1 witness: a PRACTICE_TOOL payload in non-verbose mode exercises
the gated branch of the amended statement. -/
theorem c1_witness :
    (outcomeOf (handle_gameflow oracleSmooth stateLobbyPrev practicePayload) dfltOutcome).state.cache.previous_phase =
      stateLobbyPrev.cache.previous_phase :=
  (c1_amended_phase_tracking oracleSmooth stateLobbyPrev practicePayload
      (outcomeOf (handle_gameflow oracleSmooth stateLobbyPrev practicePayload) dfltOutcome)
      (by decide)).2.1 (by decide)

/-- C5: feeding a payload that was just handled to the handler again is
a no-op: the second call is dropped by the change filter, returns the
state unchanged and issues zero recording commands, whatever the device
would have answered. -/
theorem c5_idempotent_second_call :
    ∀ (o o' : ObsOracle) (s : LogicState) (d : Json) (out : GfOutcome),
      handle_gameflow o s d = .ok out →
      handle_gameflow o' out.state d = .ok ⟨out.state, [], .filtered⟩ := by
  intro o o' s d out h
  exact gf_refilter o o' s d out h

/-- C5 witness: the Lobby payload handled from the start state, then
fed again. -/
theorem c5_witness :
    handle_gameflow oracleSmooth
        (outcomeOf (handle_gameflow oracleSmooth stateStart (payloadOfPhase "Lobby")) dfltOutcome).state
        (payloadOfPhase "Lobby") =
      .ok ⟨(outcomeOf (handle_gameflow oracleSmooth stateStart (payloadOfPhase "Lobby")) dfltOutcome).state,
           [], .filtered⟩ :=
  c5_idempotent_second_call oracleSmooth oracleSmooth stateStart (payloadOfPhase "Lobby")
    (outcomeOf (handle_gameflow oracleSmooth stateStart (payloadOfPhase "Lobby")) dfltOutcome)
    (by decide)

/-- C9: a call that ends at the ignored-queue gate has already stored
the payload as the cached gameflow_session (the cache update of line
185 precedes the gate of line 195), issued no commands, left
previous_phase unchanged, and an immediately repeated identical payload
is dropped by the change filter instead of reaching the gate again. -/
theorem c9_session_stored_before_gate :
    ∀ (o o' : ObsOracle) (s : LogicState) (d : Json) (out : GfOutcome),
      handle_gameflow o s d = .ok out → out.exitKind = GfExit.gated →
      out.state.cache.gameflow_session = d ∧
      out.acts = [] ∧
      out.state.cache.previous_phase = s.cache.previous_phase ∧
      handle_gameflow o' out.state d = .ok ⟨out.state, [], .filtered⟩ := by
  intro o o' s d out h hexit
  refine ⟨?_, ?_, ?_, gf_refilter o o' s d out h⟩ <;>
  · unfold handle_gameflow at h
    split at h
    · injection h with h1
      subst h1
      exact nomatch hexit
    · split at h
      · exact absurd h (by simp)
      · rename_i json_data heq1
        split at h
        · exact absurd h (by simp)
        · rename_i current_phase heq2
          split at h
          · exact absurd h (by simp)
          · rename_i queue_type heq3
            split at h
            · exact absurd h (by simp)
            · rename_i gd heq4
              dsimp only at h
              split at h
              · injection h with h1
                subst h1
                rfl
              · injection h with h1
                subst h1
                exact nomatch hexit

/-- C9 witness: the gated PRACTICE_TOOL call from a Lobby state, with
the gated outcome fed back in. -/
theorem c9_witness :
    (outcomeOf (handle_gameflow oracleSmooth stateLobbyPrev practicePayload) dfltOutcome).state.cache.gameflow_session =
      practicePayload ∧
    (outcomeOf (handle_gameflow oracleSmooth stateLobbyPrev practicePayload) dfltOutcome).acts = [] :=
  ⟨((c9_session_stored_before_gate oracleSmooth oracleSmooth stateLobbyPrev practicePayload
        (outcomeOf (handle_gameflow oracleSmooth stateLobbyPrev practicePayload) dfltOutcome)
        (by decide) (by decide))).1,
   ((c9_session_stored_before_gate oracleSmooth oracleSmooth stateLobbyPrev practicePayload
        (outcomeOf (handle_gameflow oracleSmooth stateLobbyPrev practicePayload) dfltOutcome)
        (by decide) (by decide))).2.1⟩

/-- C4: every normally-returning handler call issues at most one
start/stop command (the elif chain of cases a-e, first match wins), and
for the visited phase sequence Lobby, ReadyCheck, ChampSelect, None
from a fresh non-recording state with a well-behaved device, exactly
one start fires (at ReadyCheck entry) and exactly one stop fires (at
the ChampSelect-to-None cancellation), never both and never neither. -/
theorem c4_single_action_per_transition :
    (∀ (o : ObsOracle) (s : LogicState) (d : Json) (out : GfOutcome),
        handle_gameflow o s d = .ok out → (out.acts.countP isRecCommand) ≤ 1) ∧
    handle_gameflow oracleSmooth stateStart (payloadOfPhase "Lobby") = .ok ⟨stateSeq1, [], .completed⟩ ∧
    handle_gameflow oracleSmooth stateSeq1 (payloadOfPhase "ReadyCheck") = .ok ⟨stateSeq2, [.start], .completed⟩ ∧
    handle_gameflow oracleSmooth stateSeq2 (payloadOfPhase "ChampSelect") = .ok ⟨stateSeq3, [], .completed⟩ ∧
    handle_gameflow oracleSmooth stateSeq3 (payloadOfPhase "None") = .ok ⟨stateSeq4, [.stop], .completed⟩ := by
  refine ⟨?_, by decide, by decide, by decide, by decide⟩
  intro o s d out h
  unfold handle_gameflow at h
  split at h
  · injection h with h1
    subst h1
    simp [List.countP_nil]
  · split at h
    · exact absurd h (by simp)
    · rename_i json_data heq1
      split at h
      · exact absurd h (by simp)
      · rename_i current_phase heq2
        split at h
        · exact absurd h (by simp)
        · rename_i queue_type heq3
          split at h
          · exact absurd h (by simp)
          · rename_i gd heq4
            dsimp only at h
            split at h
            · injection h with h1
              subst h1
              simp [List.countP_nil]
            · injection h with h1
              subst h1
              show ((if _ then transition_step o _ current_phase queue_type json_data
                     else (_, [])).2.countP isRecCommand) ≤ 1
              split
              · exact transition_step_acts o _ current_phase queue_type json_data
              · simp [List.countP_nil]

/-- C4 witness: the at-most-one-command bound evaluated on the concrete
ReadyCheck start transition. -/
theorem c4_witness :
    ((outcomeOf (handle_gameflow oracleSmooth stateSeq1 (payloadOfPhase "ReadyCheck")) dfltOutcome).acts.countP
      isRecCommand) ≤ 1 :=
  c4_single_action_per_transition.1 oracleSmooth stateSeq1 (payloadOfPhase "ReadyCheck")
    (outcomeOf (handle_gameflow oracleSmooth stateSeq1 (payloadOfPhase "ReadyCheck")) dfltOutcome)
    (by decide)

theorem obsStep_preserves_no_path (s : ObsClientState) (op : ObsOp)
    (h : s.last_recording_path = none) : (obsStep s op).last_recording_path = none := by
  cases op <;> unfold obsStep <;> (try unfold modify_last_recording) <;> (repeat' split) <;> simp_all

theorem obsRun_no_path : ∀ (ops : List ObsOp) (s : ObsClientState),
    s.last_recording_path = none → (obsRun s ops).last_recording_path = none := by
  intro ops
  induction ops with
  | nil => intro s h; exact h
  | cons op rest ih =>
    intro s h
    exact ih (obsStep s op) (obsStep_preserves_no_path s op h)

/-- C3: in every state the OBSClient can reach from its constructor,
last_recording_path is still absent — the event handler writes output
paths only to the separate _recording_path field, and the only
assignment to last_recording_path sits behind modify_last_recording's
own falsy-path guard, which returns False without writing; hence
get_last_recording_path answers none, modify_last_recording on such a
state is a no-op returning False, and a stop whose device reports no
last path never emits a rename request. -/
theorem c3_last_recording_path_absent :
    (∀ ops : List ObsOp, get_last_recording_path (obsRun obsClientInit ops) = none) ∧
    (∀ (s : ObsClientState) (p : String) (fsOk : Bool),
        s.last_recording_path = none → modify_last_recording s p fsOk = (s, false)) ∧
    (∀ (o : ObsOracle) (qt jd : Json) (s : LogicState),
        o.lastPath = none →
        ((handle_recording_stop o qt jd s).2.1.countP isRename) = 0) := by
  refine ⟨?_, ?_, ?_⟩
  · intro ops
    exact obsRun_no_path ops obsClientInit rfl
  · intro s p fsOk h
    unfold modify_last_recording
    rw [h]
  · intro o qt jd s h
    unfold handle_recording_stop
    repeat' split
    all_goals simp_all [List.countP_cons, List.countP_nil, isRename]

/-- C3 witness: a run that connects, receives a recording event with an
output path, and attempts a rename, still reports no last path. -/
theorem c3_witness :
    get_last_recording_path (obsRun obsClientInit
      [ObsOp.connectOk,
       ObsOp.onEvent true (some "OBS_WEBSOCKET_OUTPUT_STARTED") (some "/rec/a.mkv") true,
       ObsOp.modifyLast "/rec/b" true]) = none ∧
    modify_last_recording obsClientInit "/rec/b" true = (obsClientInit, false) ∧
    ((handle_recording_stop oracleSmooth (.str "") (.obj []) stateAfterChampSelect).2.1.countP isRename) = 0 :=
  ⟨c3_last_recording_path_absent.1
      [ObsOp.connectOk,
       ObsOp.onEvent true (some "OBS_WEBSOCKET_OUTPUT_STARTED") (some "/rec/a.mkv") true,
       ObsOp.modifyLast "/rec/b" true],
   c3_last_recording_path_absent.2.1 obsClientInit "/rec/b" true rfl,
   c3_last_recording_path_absent.2.2 oracleSmooth (.str "") (.obj []) stateAfterChampSelect rfl⟩

theorem listenStep_not_running (st : ListenState) (e : WsEvent) (h : st.running = false) :
    (listenStep st e).running = false ∧ (listenStep st e).connects = st.connects := by
  cases e <;> unfold listenStep <;> (repeat' split) <;> simp_all

theorem listenRun_not_running : ∀ (evs : List WsEvent) (st : ListenState),
    st.running = false →
    (listenRun st evs).connects = st.connects ∧ (listenRun st evs).running = false := by
  intro evs
  induction evs with
  | nil => intro st h; exact ⟨rfl, h⟩
  | cons e rest ih =>
    intro st h
    obtain ⟨hrun, hconn⟩ := listenStep_not_running st e h
    obtain ⟨ih1, ih2⟩ := ih (listenStep st e) hrun
    constructor
    · show (listenRun (listenStep st e) rest).connects = st.connects
      rw [ih1, hconn]
    · show (listenRun (listenStep st e) rest).running = false
      exact ih2

/-- C6: a transport closure observed while the running flag is set makes
exactly one reconnecting connect() call and the loop keeps receiving
(not exited); a closure with the flag clear exits the loop with no
connect() call; and once close() has begun — its first effect clears
the flag — no later event can ever add a connect() call. -/
theorem c6_reconnect_exactly_once :
    (∀ n : Nat, listenStep ⟨true, false, n⟩ WsEvent.connClosed = ⟨true, false, n + 1⟩) ∧
    (∀ n : Nat, listenStep ⟨false, false, n⟩ WsEvent.connClosed = ⟨false, true, n⟩) ∧
    (∀ (st : ListenState) (evs : List WsEvent), st.running = false →
        (listenRun st evs).connects = st.connects) ∧
    (∀ (st : ListenState) (evs : List WsEvent),
        (listenRun (listenStep st WsEvent.closeBegun) evs).connects = st.connects) := by
  refine ⟨fun n => rfl, fun n => rfl, ?_, ?_⟩
  · intro st evs h
    exact (listenRun_not_running evs st h).1
  · intro st evs
    exact (listenRun_not_running evs {st with running := false} rfl).1

/-- C6 witness: one closure while running adds one connect; events after
a closure during shutdown, or after close() began, add none. -/
theorem c6_witness :
    listenStep ⟨true, false, 0⟩ WsEvent.connClosed = ⟨true, false, 1⟩ ∧
    (listenRun ⟨false, false, 3⟩ [WsEvent.connClosed, WsEvent.msgArrived]).connects = 3 ∧
    (listenRun (listenStep ⟨true, false, 2⟩ WsEvent.closeBegun)
        [WsEvent.connClosed, WsEvent.connClosed]).connects = 2 :=
  ⟨c6_reconnect_exactly_once.1 0,
   c6_reconnect_exactly_once.2.2.1 ⟨false, false, 3⟩ [WsEvent.connClosed, WsEvent.msgArrived] rfl,
   c6_reconnect_exactly_once.2.2.2 ⟨true, false, 2⟩ [WsEvent.connClosed, WsEvent.connClosed]⟩

/-- C7 amended: absent auth details do not fail fast — the
ConnectionError they raise is caught by the attempt's own except, so
the first attempt is consumed and a backoff sleep follows like for any
other failure; if no later attempt succeeds, connect() stops after
exactly MAX_RETRIES = 3 attempts and 2 backoff sleeps and the final
ConnectionError wraps the last attempt's cause. -/
theorem c7_amended_auth_error_is_retried :
    ∀ env : Nat → ConnAttempt,
      attemptResult (env 0) = some AttemptFailure.authMissing →
      2 ≤ (lcuConnect env).attemptsMade ∧
      1 ≤ (lcuConnect env).backoffSleeps ∧
      ((lcuConnect env).connected = false →
        (lcuConnect env).attemptsMade = 3 ∧ (lcuConnect env).backoffSleeps = 2 ∧
        (lcuConnect env).raisedWrapping = attemptResult (env 2)) := by
  intro env h
  unfold lcuConnect MAX_RETRIES connectAux
  rw [h]
  rcases h1 : attemptResult (env 1) with _ | f1
  · simp [connectAux, h1]
  · rcases h2 : attemptResult (env 2) with _ | f2 <;> simp [connectAux, h1, h2]

/-- C7 witness: the all-absent environment exercises the amended bound. -/
theorem c7_witness :
    2 ≤ (lcuConnect authAbsentEnv).attemptsMade ∧
    1 ≤ (lcuConnect authAbsentEnv).backoffSleeps :=
  ⟨(c7_amended_auth_error_is_retried authAbsentEnv (by decide)).1,
   (c7_amended_auth_error_is_retried authAbsentEnv (by decide)).2.1⟩

/-- C8: handlers run only when the frame decodes to a JSON list of
length above 2 (kind, topic, payload); a decode failure (none) or any
other shape yields no invocation, and handleMessage is a total
function — the method catches every exception, so a bad frame never
terminates the listener. -/
theorem c8_malformed_frames_discarded :
    ∀ (handlers : List (String × HandlerId)) (decoded : Option Json),
      (handleMessage handlers decoded ≠ [] → ∃ l, decoded = some (Json.arr l) ∧ 2 < l.length) ∧
      (handleMessage handlers none = []) ∧
      (∀ l, decoded = some (Json.arr l) → l.length ≤ 2 → handleMessage handlers decoded = []) ∧
      (∀ j, decoded = some j → (∀ l, j ≠ Json.arr l) → handleMessage handlers decoded = []) := by
  intro handlers decoded
  refine ⟨?_, rfl, ?_, ?_⟩
  · intro hne
    match decoded with
    | none => exact absurd rfl hne
    | some (Json.arr l) =>
      refine ⟨l, rfl, ?_⟩
      by_contra hlen
      exact hne (by simp [handleMessage, Nat.le_of_not_lt hlen])
    | some Json.null => exact absurd rfl hne
    | some (Json.bool b) => exact absurd rfl hne
    | some (Json.num n) => exact absurd rfl hne
    | some (Json.str s) => exact absurd rfl hne
    | some (Json.obj fs) => exact absurd rfl hne
  · intro l hdec hlen
    subst hdec
    simp [handleMessage, hlen]
  · intro j hdec hnotarr
    subst hdec
    cases j <;> first
      | rfl
      | exact absurd rfl (hnotarr _)

/-- C8 witness: a two-element frame is discarded with no invocation. -/
theorem c8_witness :
    handleMessage gameflowHandlers (some (Json.arr [Json.num 8, Json.str "x"])) = [] :=
  (c8_malformed_frames_discarded gameflowHandlers
      (some (Json.arr [Json.num 8, Json.str "x"]))).2.2.1
    [Json.num 8, Json.str "x"] rfl (by decide)

/-- C10: close() with the running flag clear is a no-op that leaves the
websocket reference untouched — in particular right after a connect()
that set the reference while the flag is still clear (listen() not yet
run); only a close() with the flag set clears the flag, closes the
transport when the reference is set, and clears the reference. -/
theorem c10_close_noop_before_listen :
    (∀ s : ApiConnState, s.running = false → apiClose s = (s, [])) ∧
    (∀ s : ApiConnState, s.running = false →
        apiClose (apiConnectEffect s) = (apiConnectEffect s, []) ∧
        (apiConnectEffect s).ws_ref = true) ∧
    (∀ s : ApiConnState, s.running = true →
        (apiClose s).1 = ⟨false, false⟩ ∧
        (apiClose s).2 = (if s.ws_ref then [CloseEffect.transportClosed] else [])) := by
  refine ⟨?_, ?_, ?_⟩
  · intro s h
    simp [apiClose, h]
  · intro s h
    exact ⟨by simp [apiClose, apiConnectEffect, h], rfl⟩
  · intro s h
    unfold apiClose
    rw [h]
    exact ⟨rfl, rfl⟩

/-- C10 witness: close() after connect() but before listen() leaves the
open transport alone; close() while running tears it down. -/
theorem c10_witness :
    apiClose (apiConnectEffect ⟨false, false⟩) = (apiConnectEffect ⟨false, false⟩, []) ∧
    (apiClose ⟨true, true⟩).1 = ⟨false, false⟩ :=
  ⟨(c10_close_noop_before_listen.2.1 ⟨false, false⟩ rfl).1,
   (c10_close_noop_before_listen.2.2 ⟨true, true⟩ rfl).1⟩
